import Mathlib

/-!
Verification of the ARC candidate-evaluation pipeline.

This file is a shallow embedding of the core of the ARC repository:
`arc/evaluation.py` (per-candidate LLM evaluation with retry/backoff),
`arc/processing.py` (batch partitioning and result assembly),
`arc/prompts.py` (per-candidate user message), and the weight
normalization in `arc/ui/sidebar.py`.

Modelling conventions:
* Python strings are Lean `String`s; the Python string methods used by the
  code (`strip`, `lower`, `startswith`, `endswith`, slicing, `in`) are
  re-implemented below as structurally recursive functions over `List Char`
  so that every definition evaluates inside the kernel.
* A spreadsheet cell that is absent or NaN is `none`; a row is a function
  from column name to `Option String` (`row.get` with `pd.isna` handling).
* `json.loads` is modelled by `jsonLoads`, a recursive-descent JSON parser
  producing `JVal`; Python dicts coming from JSON are association lists,
  with `dict.get`'s duplicate-key semantics (last key wins).
* The LLM client is an oracle `Nat → Except String String` mapping the
  attempt number to either a raised exception's text or the returned text;
  `random.uniform(0,1)` is an oracle `Nat → ℚ`; `time.sleep` is recorded
  as data (the list of requested delays) rather than executed.
-/

namespace Arc

/-- Python whitespace characters relevant to `str.strip` (ASCII subset). -/
def isPyWs (c : Char) : Bool :=
  c = ' ' || c = '\t' || c = '\n' || c = '\r' || c = '\x0b' || c = '\x0c'

/-- Drop leading whitespace from a character list. -/
def dropWs : List Char → List Char
  | [] => []
  | c :: cs => if isPyWs c then dropWs cs else c :: cs

/-- Python `str.strip()`: remove leading and trailing whitespace. -/
def pyStrip (s : String) : String :=
  ⟨((dropWs ((dropWs s.data).reverse)).reverse)⟩

/-- Lower-case a single ASCII character (model of `str.lower` per char). -/
def charLower (c : Char) : Char :=
  if 65 ≤ c.toNat ∧ c.toNat ≤ 90 then Char.ofNat (c.toNat + 32) else c

/-- Python `str.lower()` (ASCII model). -/
def pyLower (s : String) : String :=
  ⟨s.data.map charLower⟩

/-- Whether `hay` begins with `needle` (character lists). -/
def beginsWith : List Char → List Char → Bool
  | [], _ => true
  | _ :: _, [] => false
  | a :: as, b :: bs => a = b && beginsWith as bs

/-- Python `needle in hay` (substring containment on character lists). -/
def listHasSub (hay needle : List Char) : Bool :=
  if beginsWith needle hay then true
  else
    match hay with
    | [] => false
    | _ :: t => listHasSub t needle

/-- Python `sub in s` for strings. -/
def strHasSub (s sub : String) : Bool :=
  listHasSub s.data sub.data

/-- Python `s.startswith(p)`. -/
def pyStartsWith (s p : String) : Bool :=
  beginsWith p.data s.data

/-- Python `s.endswith(p)`. -/
def pyEndsWith (s p : String) : Bool :=
  beginsWith p.data.reverse s.data.reverse

/-- Python `s[n:]`. -/
def pyDrop (s : String) (n : Nat) : String :=
  ⟨s.data.drop n⟩

/-- Python `s[:-n]` (for `0 < n ≤ len s`; drop the last `n` characters). -/
def pyDropRight (s : String) (n : Nat) : String :=
  ⟨s.data.take (s.data.length - n)⟩

/-- A JSON value, the result of `json.loads`. -/
inductive JVal where
  | null
  | bool (b : Bool)
  | num (q : ℚ)
  | str (s : String)
  | arr (xs : List JVal)
  | obj (kvs : List (String × JVal))

/-- Python dict lookup for a dict built from JSON key/value pairs:
with duplicate keys the last occurrence wins. -/
def lookupLast (kvs : List (String × JVal)) (k : String) : Option JVal :=
  (kvs.reverse.find? (fun p => p.1 = k)).map (fun p => p.2)

/-- Python `d.get(k, dflt)` on a JSON object. -/
def jget (kvs : List (String × JVal)) (k : String) (dflt : JVal) : JVal :=
  (lookupLast kvs k).getD dflt

/-- Python truthiness of a JSON value. -/
def pyTruthy : JVal → Bool
  | .null => false
  | .bool b => b
  | .num q => q ≠ 0
  | .str s => s ≠ ""
  | .arr xs => !xs.isEmpty
  | .obj kvs => !kvs.isEmpty

/-- Rendering of a JSON value inside a Python f-string (`str(v)`); only the
string case is exercised by the claims, the other constructors get a
best-effort rendering. -/
def pyShow : JVal → String
  | .null => "None"
  | .bool b => if b then "True" else "False"
  | .num _ => "<number>"
  | .str s => s
  | .arr _ => "<list>"
  | .obj _ => "<dict>"

/-- JSON whitespace accepted between tokens by `json.loads`. -/
def isJsonWs (c : Char) : Bool :=
  c = ' ' || c = '\t' || c = '\n' || c = '\r'

/-- Skip JSON whitespace. -/
def skipWs : List Char → List Char
  | [] => []
  | c :: cs => if isJsonWs c then skipWs cs else c :: cs

/-- Decimal digit test (ASCII). -/
def isDigitCh (c : Char) : Bool :=
  48 ≤ c.toNat && c.toNat ≤ 57

/-- Value of a list of decimal digits. -/
def digitsToNat (ds : List Char) : Nat :=
  ds.foldl (fun n c => 10 * n + (c.toNat - 48)) 0

/-- Interpretation of a JSON string escape character. -/
def escChar (c : Char) : Char :=
  if c = 'n' then '\n'
  else if c = 't' then '\t'
  else if c = 'r' then '\r'
  else if c = 'b' then '\x08'
  else if c = 'f' then '\x0c'
  else c

/-- Parse the body of a JSON string after the opening quote; returns the
string and the remaining input. -/
def parseStrBody (acc : List Char) : List Char → Option (String × List Char)
  | [] => none
  | '"' :: cs => some (⟨acc.reverse⟩, cs)
  | '\\' :: e :: cs => parseStrBody (escChar e :: acc) cs
  | '\\' :: [] => none
  | c :: cs => parseStrBody (c :: acc) cs

/-- Parse a JSON number (integer part mandatory, optional fraction and
exponent); returns the value and the remaining input.  An integer literal
is produced without any rational arithmetic so that parsed integers are
definitionally the corresponding numerals. -/
def parseNumber (cs : List Char) : Option (ℚ × List Char) :=
  let (neg, cs1) :=
    match cs with
    | '-' :: t => (true, t)
    | _ => (false, cs)
  let ip := cs1.takeWhile isDigitCh
  let cs2 := cs1.dropWhile isDigitCh
  if ip.isEmpty then none
  else
    let (fp, cs3) :=
      match cs2 with
      | '.' :: t => (t.takeWhile isDigitCh, t.dropWhile isDigitCh)
      | _ => ([], cs2)
    let (hasExp, expNeg, ed, cs4) :=
      match cs3 with
      | 'e' :: '+' :: t => (true, false, t.takeWhile isDigitCh, t.dropWhile isDigitCh)
      | 'e' :: '-' :: t => (true, true, t.takeWhile isDigitCh, t.dropWhile isDigitCh)
      | 'e' :: t => (true, false, t.takeWhile isDigitCh, t.dropWhile isDigitCh)
      | 'E' :: '+' :: t => (true, false, t.takeWhile isDigitCh, t.dropWhile isDigitCh)
      | 'E' :: '-' :: t => (true, true, t.takeWhile isDigitCh, t.dropWhile isDigitCh)
      | 'E' :: t => (true, false, t.takeWhile isDigitCh, t.dropWhile isDigitCh)
      | _ => (false, false, [], cs3)
    if hasExp && ed.isEmpty then none
    else
      let base : ℚ :=
        if fp.isEmpty then (digitsToNat ip : ℚ)
        else (digitsToNat ip : ℚ) + (digitsToNat fp : ℚ) / ((10 : ℚ) ^ fp.length)
      let scaled : ℚ :=
        if hasExp then
          if expNeg then base / ((10 : ℚ) ^ digitsToNat ed)
          else base * ((10 : ℚ) ^ digitsToNat ed)
        else base
      some (if neg then -scaled else scaled, cs4)

mutual

/-- Parse one JSON value (fuelled recursive descent). -/
def parseVal : Nat → List Char → Option (JVal × List Char)
  | 0, _ => none
  | Nat.succ fuel, cs =>
    match skipWs cs with
    | [] => none
    | c :: rest =>
      if c = '\x7b' then
        match skipWs rest with
        | '\x7d' :: rest2 => some (.obj [], rest2)
        | rest2 => parseMembers fuel rest2 []
      else if c = '[' then
        match skipWs rest with
        | ']' :: rest2 => some (.arr [], rest2)
        | rest2 => parseElems fuel rest2 []
      else if c = '"' then
        match parseStrBody [] rest with
        | some (s, rest2) => some (.str s, rest2)
        | none => none
      else if beginsWith ['t', 'r', 'u', 'e'] (c :: rest) then
        some (.bool true, (c :: rest).drop 4)
      else if beginsWith ['f', 'a', 'l', 's', 'e'] (c :: rest) then
        some (.bool false, (c :: rest).drop 5)
      else if beginsWith ['n', 'u', 'l', 'l'] (c :: rest) then
        some (.null, (c :: rest).drop 4)
      else
        match parseNumber (c :: rest) with
        | some (q, rest2) => some (.num q, rest2)
        | none => none

/-- Parse the members of a JSON object after the opening brace (at least
one member expected; the empty object is handled by `parseVal`). -/
def parseMembers : Nat → List Char → List (String × JVal) → Option (JVal × List Char)
  | 0, _, _ => none
  | Nat.succ fuel, cs, acc =>
    match skipWs cs with
    | '"' :: rest =>
      match parseStrBody [] rest with
      | some (k, rest2) =>
        match skipWs rest2 with
        | ':' :: rest3 =>
          match parseVal fuel rest3 with
          | some (v, rest4) =>
            match skipWs rest4 with
            | ',' :: rest5 => parseMembers fuel rest5 ((k, v) :: acc)
            | '\x7d' :: rest5 => some (.obj ((k, v) :: acc).reverse, rest5)
            | _ => none
          | none => none
        | _ => none
      | none => none
    | _ => none

/-- Parse the elements of a JSON array after the opening bracket (at least
one element expected; the empty array is handled by `parseVal`). -/
def parseElems : Nat → List Char → List JVal → Option (JVal × List Char)
  | 0, _, _ => none
  | Nat.succ fuel, cs, acc =>
    match parseVal fuel cs with
    | some (v, rest) =>
      match skipWs rest with
      | ',' :: rest2 => parseElems fuel rest2 (v :: acc)
      | ']' :: rest2 => some (.arr (v :: acc).reverse, rest2)
      | _ => none
    | none => none

end

/-- Model of Python `json.loads`: parse a complete JSON document, requiring
only whitespace after the value.  On failure the error message mirrors the
`json.JSONDecodeError` messages `str()`-ified by the caller. -/
def jsonLoads (s : String) : Except String JVal :=
  match parseVal (2 * s.data.length + 2) s.data with
  | none => .error "Expecting value"
  | some (v, rest) =>
    match skipWs rest with
    | [] => .ok v
    | _ => .error "Extra data"

/-! Embedding of `arc/evaluation.py`. -/

/-- Retry configuration (`MAX_RETRIES` in `evaluation.py`). -/
def MAX_RETRIES : Nat := 3

/-- Base backoff delay in seconds (`BASE_DELAY`). -/
def BASE_DELAY : ℚ := 2

/-- Maximum backoff delay in seconds (`MAX_DELAY`). -/
def MAX_DELAY : ℚ := 30

/-- The fixed substrings whose presence in a lower-cased error message
classifies it as throttling (`_is_throttling_error`). -/
def throttlingTerms : List String :=
  ["throttl", "rate limit", "too many requests", "serviceunav", "429", "503"]

/-- Model of `_is_throttling_error`: check the lower-cased error text for any of the
throttling substrings. -/
def isThrottlingError (e : String) : Bool :=
  throttlingTerms.any (fun t => strHasSub (pyLower e) t)

/-- The code-fence stripping performed by `evaluate_candidate` on the text
returned by a successful Gateway call: `strip()`, remove an exact leading
"```json" marker, remove an exact trailing "```" marker, `strip()` again. -/
def stripCodeFences (s : String) : String :=
  let s1 := pyStrip s
  let s2 := if pyStartsWith s1 ("```json") then pyDrop s1 7 else s1
  let s3 := if pyEndsWith s2 ("```") then pyDropRight s2 3 else s2
  pyStrip s3

/-- The error dictionary returned by `evaluate_candidate` on a JSON parse
failure. -/
def jsonParseErrorResult (msg : String) : JVal :=
  .obj [("error", .str ("JSON Parse Error: " ++ msg)),
        ("us_citizen", .bool false),
        ("overall_score", .num 0)]

/-- The error dictionary returned by `evaluate_candidate` after a terminal
API failure (`str(last_error)` is the argument). -/
def apiErrorResult (msg : String) : JVal :=
  .obj [("error", .str ("API Error: " ++ msg)),
        ("us_citizen", .bool false),
        ("overall_score", .num 0)]

/-- Observable outcome of one `evaluate_candidate` run: the returned value,
how many Gateway calls were made, and the sequence of sleeps requested. -/
structure EvalOut where
  result : JVal
  calls : Nat
  delays : List ℚ

/-- The retry loop of `evaluate_candidate`, iterating over the attempt
indices of `for attempt in range(MAX_RETRIES + 1)`.  `calls` and `delays`
accumulate the observable behaviour; `lastError` models the `last_error`
variable.  A successful call parses (or fails to parse) and returns; a
raised error retries when it is throttling-classified and attempts remain
(`attempt < MAX_RETRIES`), otherwise the loop breaks and the code falls
through to the final `API Error` return, as does loop exhaustion. -/
def evalAttempts (client : Nat → Except String String) (jitter : Nat → ℚ) :
    List Nat → Nat → List ℚ → String → EvalOut
  | [], calls, delays, lastError => ⟨apiErrorResult lastError, calls, delays⟩
  | attempt :: restAttempts, calls, delays, _ =>
    match client attempt with
    | .ok text =>
      let cleaned := stripCodeFences text
      match jsonLoads cleaned with
      | .ok v => ⟨v, calls + 1, delays⟩
      | .error m => ⟨jsonParseErrorResult m, calls + 1, delays⟩
    | .error e =>
      if isThrottlingError e = true ∧ attempt < MAX_RETRIES then
        let d := min (BASE_DELAY * 2 ^ attempt + jitter attempt) MAX_DELAY
        evalAttempts client jitter restAttempts (calls + 1) (delays ++ [d]) e
      else ⟨apiErrorResult e, calls + 1, delays⟩

/-- Model of `evaluate_candidate`: the client oracle is invoked once per attempt with
the fixed user message; the text of a raised exception is the oracle's
`.error` payload.  `str(None)` seeds `last_error` as in the source. -/
def evaluateCandidate (client : Nat → Except String String) (jitter : Nat → ℚ) : EvalOut :=
  evalAttempts client jitter (List.range (MAX_RETRIES + 1)) 0 [] "None"

/-! Embedding of `arc/prompts.py`: the per-candidate user message. -/

/-- Python `str` dict (`candidate_info`) as an association list, last
binding wins (Python dict update semantics). -/
def lookupStr (d : List (String × String)) (k : String) : Option String :=
  (d.reverse.find? (fun p => p.1 = k)).map (fun p => p.2)

/-- Python `d.get(k, dflt)` on a string dict. -/
def dictGet (d : List (String × String)) (k dflt : String) : String :=
  (lookupStr d k).getD dflt

/-- The candidate-information field lines of
`build_candidate_evaluation_message`: spec key paired with the literal
line label, in source order. -/
def fieldLabels : List (String × String) :=
  [("name", "Name: "),
   ("email", "Email: "),
   ("total_years_experience", "Total Years of Experience (self-reported): "),
   ("current_title", "Current Title (self-reported): "),
   ("current_company", "Current Company (self-reported): "),
   ("education", "Highest Degree (self-reported): "),
   ("all_degrees", "All Degrees (self-reported): "),
   ("schools_attended", "Schools Attended (self-reported): "),
   ("skills", "Skills (self-reported): ")]

/-- The nine candidate-information lines of the user message, each a label
followed by `candidate_info.get(key, 'Not provided')`. -/
def messageLines (ci : List (String × String)) : List String :=
  fieldLabels.map (fun p => p.2 ++ dictGet ci p.1 ("Not provided"))

/-- Join a list of strings with a separator (model of the newline layout of
the f-string in `build_candidate_evaluation_message`). -/
def joinSep (sep : String) : List String → String
  | [] => ""
  | [x] => x
  | x :: y :: xs => x ++ sep ++ joinSep sep (y :: xs)

/-- Model of `build_candidate_evaluation_message`: the f-string is the header line,
the nine field lines separated by newlines, then the resume block and the
closing instruction. -/
def buildCandidateEvaluationMessage (resumeText : String) (ci : List (String × String)) : String :=
  "CANDIDATE INFORMATION (from application - may be incomplete or inaccurate):\n" ++
    (joinSep ("\n") (messageLines ci) ++
      ("\n\nRESUME:\n" ++ (resumeText ++ "\n\nEvaluate this candidate and return the JSON response.")))

/-- Substring containment as a proposition on strings. -/
def containsStr (hay needle : String) : Prop :=
  List.IsInfix needle.data hay.data

/-! Embedding of `arc/processing.py`. -/

/-- The configuration consumed by the pipeline: the `EXCEL_COLUMNS`
mappings and the `require_us_citizenship` feature flag (defaults from
`arc/config.py`, overridable by `local_config.py`). -/
structure Config where
  usCitizenColumn : Option String
  usCitizenYesValue : String
  dualCitizenColumn : Option String
  dualCitizenYesValue : String
  sponsorshipColumn : Option String
  requireUsCitizenship : Bool

/-- The defaults of `arc/config.py` (`EXCEL_COLUMNS` and `FEATURES`). -/
def defaultConfig : Config :=
  ⟨none, "Yes", none, "Yes", none, false⟩

/-- A spreadsheet row: column name to optional cell value (`none` models a
missing column or a NaN cell). -/
def Row : Type := String → Option String

/-- The `safe_get` closure in `process_candidates`: `row.get` with the NaN
guard collapsing to the default. -/
def safeGet (r : Row) (col dflt : String) : String :=
  (r col).getD dflt

/-- Python `EXCEL_COLUMNS.get(key) or fallback`: `None` and the empty
string are both falsy. -/
def colOr (c : Option String) (fallback : String) : String :=
  match c with
  | some s => if s = "" then fallback else s
  | none => fallback

/-- The candidate information extracted from a row
(`extract_candidate_info`), one field per dictionary entry, with the
source's per-field defaults. -/
structure CandidateInfo where
  name : String
  email : String
  phone : String
  location : String
  education : String
  allDegrees : String
  schoolsAttended : String
  totalYearsExperience : String
  currentTitle : String
  currentCompany : String
  allCompanies : String
  skills : String
  resumeFile : String
  usCitizenFromExcel : String
  dualCitizen : String
  requiresSponsorship : String
  workAuthorized : String
  livingOutsideUs : String
  willingToRelocate : String
  dateApplied : String
  source : String
deriving DecidableEq

/-- Model of `extract_candidate_info`. -/
def extractCandidateInfo (cfg : Config) (r : Row) : CandidateInfo :=
  { name := safeGet r ("Job Application") ("Unknown")
    email := safeGet r ("Email") ("Not provided")
    phone := safeGet r ("Phone") ("Not provided")
    location := safeGet r ("Address") ("Not provided")
    education := safeGet r ("Degree") ("Not specified")
    allDegrees := safeGet r ("All Degrees") ("")
    schoolsAttended := safeGet r ("Schools Attended") ("")
    totalYearsExperience := safeGet r ("Total Years Experience") ("")
    currentTitle := safeGet r ("Current Title") ("")
    currentCompany := safeGet r ("Current Company") ("")
    allCompanies := safeGet r ("All Companies") ("")
    skills := safeGet r ("Skills") ("")
    resumeFile := safeGet r ("Resume") ("")
    usCitizenFromExcel := safeGet r (colOr cfg.usCitizenColumn ("US Citizenship")) ("")
    dualCitizen := safeGet r (colOr cfg.dualCitizenColumn ("Dual Citizenship")) ("No")
    requiresSponsorship := safeGet r (colOr cfg.sponsorshipColumn ("Requires Sponsorship")) ("No")
    workAuthorized := safeGet r ("Are you legally authorized to work in the US? (External)") ("")
    livingOutsideUs := safeGet r ("Are you living in a restricted state/outside of the U.S.") ("No")
    willingToRelocate := safeGet r ("Are you willing to relocate?") ("Not specified")
    dateApplied := safeGet r ("Date Applied") ("")
    source := safeGet r ("Source") ("") }

/-- Model of `is_us_citizen`. -/
def isUsCitizen (cfg : Config) (info : CandidateInfo) : Bool :=
  info.usCitizenFromExcel = cfg.usCitizenYesValue

/-- Model of `is_dual_citizen`. -/
def isDualCitizen (cfg : Config) (info : CandidateInfo) : Bool :=
  info.dualCitizen = cfg.dualCitizenYesValue

/-- The dedup key: `str(email).strip().lower()`. -/
def normalizeEmail (e : String) : String :=
  pyLower (pyStrip e)

/-- A row of a previous-results artifact: the `Email` cell (possibly NaN)
and the `Error` cell. -/
structure PrevRow where
  email : Option String
  error : String

/-- The set of previously processed identities (`processed_identifiers`):
emails of prior results whose `Error` is the empty string, plus the emails
of both prior disqualification lists, each trimmed and lower-cased; NaN
emails are dropped (`dropna`).  The frames are optional, and an empty
frame contributes nothing.  (Modelled as a list used purely for
membership.) -/
def priorSet (prevResults : Option (List PrevRow))
    (prevDisqNonUs prevDisqNoDegree : Option (List (Option String))) : List String :=
  (match prevResults with
   | some l =>
     if l.isEmpty then []
     else (l.filter (fun p => p.error = "")).filterMap (fun p => p.email.map normalizeEmail)
   | none => []) ++
  (match prevDisqNonUs with
   | some l => if l.isEmpty then [] else l.filterMap (fun e => e.map normalizeEmail)
   | none => []) ++
  (match prevDisqNoDegree with
   | some l => if l.isEmpty then [] else l.filterMap (fun e => e.map normalizeEmail)
   | none => [])

/-- A record appended to `already_processed`. -/
structure AlreadyRecord where
  name : String
  email : String
  note : String
deriving DecidableEq

/-- The `already_processed` record built for a deduplicated candidate. -/
def mkAlreadyRecord (info : CandidateInfo) : AlreadyRecord :=
  ⟨info.name, info.email, "Already processed in previous run"⟩

/-- A record appended to `disqualified_non_us`. -/
structure DisqRecord where
  name : String
  email : String
  educationLevel : String
  resumeFile : String
  reason : String
deriving DecidableEq

/-- The `disqualified_non_us` record built for a non-citizen. -/
def mkDisqRecord (info : CandidateInfo) : DisqRecord :=
  ⟨info.name, info.email, info.education, info.resumeFile,
   "Not a U.S. Citizen (Required for classified work)"⟩

/-- A record appended to `skipped_candidates`. -/
structure SkipRecord where
  name : String
  email : String
  educationLevel : String
  resumeFile : String
  reason : String
deriving DecidableEq

/-- The `skipped` record built for a candidate with no resume text. -/
def mkSkipRecord (info : CandidateInfo) : SkipRecord :=
  ⟨info.name, info.email, info.education, info.resumeFile,
   "No resume text available"⟩

/-- The first pass of `process_candidates` over the rows, in order: route
each row to `already_processed` (dedup key found), `disqualified_non_us`
(citizenship gate enabled and failed), or `candidates_to_process`. -/
def classifyRows (cfg : Config) (ids : List String) :
    List Row → List AlreadyRecord × List DisqRecord × List (Row × CandidateInfo)
  | [] => ([], [], [])
  | r :: rest =>
    let info := extractCandidateInfo cfg r
    let c := classifyRows cfg ids rest
    if ids.contains (normalizeEmail info.email) then
      (mkAlreadyRecord info :: c.1, c.2.1, c.2.2)
    else if cfg.requireUsCitizenship && !isUsCitizen cfg info then
      (c.1, mkDisqRecord info :: c.2.1, c.2.2)
    else
      (c.1, c.2.1, (r, info) :: c.2.2)

/-- The resume-presence filter of `process_candidates`: candidates whose
`Resume Text` cell is missing, NaN or empty are skipped, the rest become
`valid_candidates` carrying their resume text. -/
def splitResume : List (Row × CandidateInfo) → List SkipRecord × List (String × CandidateInfo)
  | [] => ([], [])
  | (r, info) :: rest =>
    let s := splitResume rest
    let resumeText := (r ("Resume Text")).getD ""
    if resumeText = "" then (mkSkipRecord info :: s.1, s.2)
    else (s.1, (resumeText, info) :: s.2)

/-- A row of the `results` list: either the full record built by
`_evaluate_single_candidate`, or the three-field record built when a
worker raises an unexpected exception at the batch level. -/
structure ResultRow where
  candidateName : String
  email : String
  phone : String
  location : String
  willingToRelocate : String
  dualCitizenship : String
  securityClearance : JVal
  polygraph : JVal
  foreignEducation : String
  foreignEducationCountries : JVal
  foreignEducationDetails : JVal
  clearanceRiskFactors : String
  dateApplied : String
  dateEvaluated : String
  overallScore : JVal
  requiredSkillsScore : JVal
  preferredSkillsScore : JVal
  educationScore : JVal
  yearsOfExperience : JVal
  yearsOfExperienceAdjusted : JVal
  recommendedPayband : JVal
  highestCompletedDegree : JVal
  degreeField : JVal
  degreeInProgress : JVal
  degreeInProgressField : JVal
  expectedGraduation : JVal
  keyStrengths : JVal
  concernsGaps : JVal
  detailedReasoning : JVal
  error : JVal

/-- The record dictionary built at the end of `_evaluate_single_candidate`
from the candidate info and the evaluation dictionary; `now` is the
`datetime.now()` timestamp. -/
def buildResultRow (cfg : Config) (now : String) (info : CandidateInfo)
    (ev : List (String × JVal)) : ResultRow :=
  let hasForeignEdu := pyTruthy (jget ev ("has_foreign_education") (.bool false))
  let foreignEduCountries := jget ev ("foreign_education_countries") (.str "")
  let clearanceRisks : List String :=
    (if hasForeignEdu then
      [if pyTruthy foreignEduCountries then
        "Foreign Education (" ++ pyShow foreignEduCountries ++ ")"
       else "Foreign Education"]
     else []) ++
    (if info.requiresSponsorship = "Yes" then ["Requires Immigration Sponsorship"] else []) ++
    (if isDualCitizen cfg info then ["Dual Citizenship"] else []) ++
    (if info.livingOutsideUs = "Yes" then ["Living Outside US/Restricted State"] else [])
  { candidateName := info.name
    email := info.email
    phone := info.phone
    location := info.location
    willingToRelocate := info.willingToRelocate
    dualCitizenship := info.dualCitizen
    securityClearance := jget ev ("security_clearance") (.str "Unknown")
    polygraph := jget ev ("polygraph") (.str "Unknown")
    foreignEducation := if hasForeignEdu then "Yes" else "No"
    foreignEducationCountries := foreignEduCountries
    foreignEducationDetails := jget ev ("foreign_education_details") (.str "")
    clearanceRiskFactors :=
      if clearanceRisks.isEmpty then "None identified" else joinSep ("; ") clearanceRisks
    dateApplied := info.dateApplied
    dateEvaluated := now
    overallScore := jget ev ("overall_score") (.num 0)
    requiredSkillsScore := jget ev ("required_skills_score") (.num 0)
    preferredSkillsScore := jget ev ("preferred_skills_score") (.num 0)
    educationScore := jget ev ("education_score") (.num 0)
    yearsOfExperience := jget ev ("years_of_experience") (.num 0)
    yearsOfExperienceAdjusted := jget ev ("years_of_experience_adjusted") (.num 0)
    recommendedPayband := jget ev ("recommended_payband") (.str "N/A")
    highestCompletedDegree := jget ev ("highest_completed_degree") (.str "")
    degreeField := jget ev ("highest_degree_field") (.str "")
    degreeInProgress := jget ev ("degree_in_progress") (.str "None")
    degreeInProgressField := jget ev ("degree_in_progress_field") (.str "")
    expectedGraduation := jget ev ("expected_graduation") (.str "")
    keyStrengths := jget ev ("key_strengths") (.str "")
    concernsGaps := jget ev ("concerns_gaps") (.str "")
    detailedReasoning := jget ev ("detailed_reasoning") (.str "")
    error := jget ev ("error") (.str "") }

/-- One entry of the `results` list. -/
inductive OutRecord where
  | ok (row : ResultRow)
  | failed (name email err : String)

/-- One worker's contribution to `results`: run `evaluate_candidate`; if it
returns a dictionary, `_evaluate_single_candidate` assembles the full
record; if it returns any other JSON value, the attribute access
`evaluation.get` raises, the exception is caught in the `as_completed`
loop and the three-field processing-error record is appended. -/
def evalOneRecord (cfg : Config) (now : String) (client : Nat → Except String String)
    (jitter : Nat → ℚ) (info : CandidateInfo) : OutRecord :=
  match (evaluateCandidate client jitter).result with
  | .obj kvs => .ok (buildResultRow cfg now info kvs)
  | _ =>
    .failed info.name info.email
      ("Processing error: the evaluation response is not a JSON object")

/-- The five output partitions of `process_candidates`, plus the list of
candidates actually handed to the Gateway workers (`valid_candidates`),
kept for auditing which candidates cost an LLM call. -/
structure ProcessOut where
  results : List OutRecord
  skipped : List SkipRecord
  disqualifiedNonUs : List DisqRecord
  disqualifiedNoDegree : List DisqRecord
  alreadyProcessed : List AlreadyRecord
  gatewayCandidates : List CandidateInfo

/-- Model of `process_candidates`.  `clients i` / `jitters i` are the Gateway and
jitter oracles seen by the worker of the i-th valid candidate; completion
order of the thread pool is non-deterministic, the model collects results
in submission order (partition sizes and membership are order-invariant).
The `disqualified_no_degree` partition is the deprecated, never-populated
list.  When there are no valid candidates the early return produces the
same five frames.  -/
def processCandidates (cfg : Config) (clients : Nat → Nat → Except String String)
    (jitters : Nat → Nat → ℚ) (now : String) (rows : List Row) (testCount : Option Nat)
    (prevResults : Option (List PrevRow))
    (prevDisqNonUs prevDisqNoDegree : Option (List (Option String))) : ProcessOut :=
  let ids := priorSet prevResults prevDisqNonUs prevDisqNoDegree
  let dfToProcess :=
    match testCount with
    | some n => if n = 0 then rows else rows.take n
    | none => rows
  let classified := classifyRows cfg ids dfToProcess
  let filtered := splitResume classified.2.2
  let valid := filtered.2
  let results :=
    valid.enum.map (fun p => evalOneRecord cfg now (clients p.1) (jitters p.1) p.2.2)
  ⟨results, filtered.1, classified.2.1, [], classified.1, valid.map (fun v => v.2)⟩

/-! Embedding of the weight normalization in `arc/ui/sidebar.py`. -/

/-- Python 3 `round()` on an exact rational: round half to even.  (The
source rounds a 64-bit float; the model uses the exact quotient, which
agrees away from representation-boundary ties.) -/
def pythonRound (q : ℚ) : ℤ :=
  let f := ⌊q⌋
  if q - f < 1 / 2 then f
  else if 1 / 2 < q - f then f + 1
  else if f % 2 = 0 then f else f + 1

/-- The weight-normalization block of `_render_scoring_section`: for a
positive total, required and preferred are rounded shares of 100 and the
education bucket receives the remainder. -/
def normalizeWeights (required preferred education : ℕ) : ℤ × ℤ × ℤ :=
  let total : ℚ := ((required + preferred + education : ℕ) : ℚ)
  let normalizedReq := pythonRound ((required : ℚ) / total * 100)
  let normalizedPref := pythonRound ((preferred : ℚ) / total * 100)
  (normalizedReq, normalizedPref, 100 - normalizedReq - normalizedPref)

/-! Helper lemmas and claim theorems. -/

/-- The classification pass is a partition: the three output lists account
for every input row exactly once. -/
theorem classifyRows_length (cfg : Config) (ids : List String) (rows : List Row) :
    (classifyRows cfg ids rows).1.length + (classifyRows cfg ids rows).2.1.length +
      (classifyRows cfg ids rows).2.2.length = rows.length := by
  induction rows with
  | nil => rfl
  | cons r rest ih =>
    simp only [classifyRows]
    split
    · simpa using by omega
    · split
      · simp only [List.length_cons]; omega
      · simp only [List.length_cons]; omega

/-- The resume filter is a partition of the candidates to process. -/
theorem splitResume_length (l : List (Row × CandidateInfo)) :
    (splitResume l).1.length + (splitResume l).2.length = l.length := by
  induction l with
  | nil => rfl
  | cons p rest ih =>
    obtain ⟨r, info⟩ := p
    simp only [splitResume]
    split
    · simp only [List.length_cons]; omega
    · simp only [List.length_cons]; omega

/-- C1 — Batch partition completeness: with no test-mode cap, the sizes of
the five output partitions (results, skipped, disqualified non-US,
disqualified no-degree, already-processed) sum to the number of input
rows; every row lands in exactly one partition. -/
theorem partition_completeness (cfg : Config) (clients : Nat → Nat → Except String String)
    (jitters : Nat → Nat → ℚ) (now : String) (rows : List Row)
    (prevResults : Option (List PrevRow))
    (prevDisqNonUs prevDisqNoDegree : Option (List (Option String))) :
    (processCandidates cfg clients jitters now rows none prevResults
        prevDisqNonUs prevDisqNoDegree).results.length +
      (processCandidates cfg clients jitters now rows none prevResults
        prevDisqNonUs prevDisqNoDegree).skipped.length +
      (processCandidates cfg clients jitters now rows none prevResults
        prevDisqNonUs prevDisqNoDegree).disqualifiedNonUs.length +
      (processCandidates cfg clients jitters now rows none prevResults
        prevDisqNonUs prevDisqNoDegree).disqualifiedNoDegree.length +
      (processCandidates cfg clients jitters now rows none prevResults
        prevDisqNonUs prevDisqNoDegree).alreadyProcessed.length = rows.length := by
  have hc := classifyRows_length cfg
    (priorSet prevResults prevDisqNonUs prevDisqNoDegree) rows
  have hs := splitResume_length
    (classifyRows cfg (priorSet prevResults prevDisqNonUs prevDisqNoDegree) rows).2.2
  simp only [processCandidates, List.length_map, List.enum_length, List.length_nil]
  omega

/-- The already-processed partition is exactly the rows whose dedup key is
in the prior-processed set, in input order. -/
theorem classifyRows_already (cfg : Config) (ids : List String) (rows : List Row) :
    (classifyRows cfg ids rows).1 =
      (rows.filter
        (fun r => ids.contains (normalizeEmail (extractCandidateInfo cfg r).email))).map
        (fun r => mkAlreadyRecord (extractCandidateInfo cfg r)) := by
  induction rows with
  | nil => rfl
  | cons r rest ih =>
    simp only [classifyRows, List.filter_cons]
    by_cases h : normalizeEmail (extractCandidateInfo cfg r).email ∈ ids
    · simp [h, ih]
    · by_cases h2 : cfg.requireUsCitizenship = true ∧ isUsCitizen cfg (extractCandidateInfo cfg r) = false
      · simp [h, h2, ih]
      · simp [h, h2, ih]

/-- Every candidate forwarded past the dedup gate has a dedup key outside
the prior-processed set, and carries its own extracted info. -/
theorem classifyRows_toProcess (cfg : Config) (ids : List String) (rows : List Row) :
    ∀ p ∈ (classifyRows cfg ids rows).2.2,
      ids.contains (normalizeEmail p.2.email) = false ∧
        p.2 = extractCandidateInfo cfg p.1 := by
  induction rows with
  | nil => intro p hp; simp [classifyRows] at hp
  | cons r rest ih =>
    intro p hp
    simp only [classifyRows] at hp
    by_cases h : ids.contains (normalizeEmail (extractCandidateInfo cfg r).email) = true
    · rw [if_pos h] at hp
      exact ih p hp
    · rw [if_neg h] at hp
      by_cases h2 :
          (cfg.requireUsCitizenship && !isUsCitizen cfg (extractCandidateInfo cfg r)) = true
      · rw [if_pos h2] at hp
        exact ih p hp
      · rw [if_neg h2] at hp
        rcases List.mem_cons.mp hp with he | ht
        · subst he
          exact ⟨by simpa using h, rfl⟩
        · exact ih p ht

/-- The resume filter only selects from the candidates it was given. -/
theorem splitResume_valid_snd (l : List (Row × CandidateInfo)) :
    ∀ x ∈ (splitResume l).2.map (fun v => v.2), x ∈ l.map (fun p => p.2) := by
  induction l with
  | nil => intro x hx; simp [splitResume] at hx
  | cons p rest ih =>
    obtain ⟨r, info⟩ := p
    intro x hx
    simp only [splitResume] at hx
    by_cases h : ((r ("Resume Text")).getD "" = "")
    · rw [if_pos h] at hx
      exact List.mem_cons_of_mem _ (ih x hx)
    · rw [if_neg h] at hx
      simp only [List.map_cons, List.mem_cons] at hx ⊢
      rcases hx with he | ht
      · exact Or.inl he
      · exact Or.inr (ih x (by simpa using ht))

/-- C6 — Prior-run dedup identity and priority: with no test-mode cap, a
row is routed to `already_processed` exactly when its trimmed, lower-cased
email is in the set built from prior results with empty error plus the
prior disqualification lists; and every candidate handed to a Gateway
worker (hence every LLM call, citizenship check or resume check applied
downstream of the gate) has a dedup key outside that set. -/
theorem prior_run_dedup (cfg : Config) (clients : Nat → Nat → Except String String)
    (jitters : Nat → Nat → ℚ) (now : String) (rows : List Row)
    (prevResults : Option (List PrevRow))
    (prevDisqNonUs prevDisqNoDegree : Option (List (Option String))) :
    (processCandidates cfg clients jitters now rows none prevResults
        prevDisqNonUs prevDisqNoDegree).alreadyProcessed =
      (rows.filter (fun r =>
        (priorSet prevResults prevDisqNonUs prevDisqNoDegree).contains
          (normalizeEmail (extractCandidateInfo cfg r).email))).map
        (fun r => mkAlreadyRecord (extractCandidateInfo cfg r)) ∧
    ∀ info ∈ (processCandidates cfg clients jitters now rows none prevResults
        prevDisqNonUs prevDisqNoDegree).gatewayCandidates,
      (priorSet prevResults prevDisqNonUs prevDisqNoDegree).contains
        (normalizeEmail info.email) = false := by
  constructor
  · exact classifyRows_already cfg _ rows
  · intro info hmem
    have h1 := splitResume_valid_snd
      (classifyRows cfg (priorSet prevResults prevDisqNonUs prevDisqNoDegree) rows).2.2
      info hmem
    obtain ⟨p, hp, hpe⟩ := List.mem_map.mp h1
    have h2 := classifyRows_toProcess cfg
      (priorSet prevResults prevDisqNonUs prevDisqNoDegree) rows p hp
    rw [← hpe]
    exact h2.1

/-- A demonstration row used to instantiate hypothesis-bearing theorems. -/
def demoRow : Row := fun c =>
  if c = "Email" then some (" A@B.c") else
  if c = "Resume Text" then some ("resume text") else none

/-- Witness for C6 at a concrete input: the demonstration row reaches a
Gateway worker and its dedup key is outside the (empty) prior set. -/
theorem prior_run_dedup_witness :
    (priorSet none none none).contains
      (normalizeEmail (extractCandidateInfo defaultConfig demoRow).email) = false :=
  (prior_run_dedup defaultConfig (fun _ _ => .ok ("\x7b\x7d")) (fun _ _ => 0) ""
      [demoRow] none none none).2
    (extractCandidateInfo defaultConfig demoRow)
    (show (extractCandidateInfo defaultConfig demoRow) ∈
        [extractCandidateInfo defaultConfig demoRow] from List.mem_singleton_self _)

/-- C4 — Retry bound for throttling: a Gateway that raises a
throttling-classified error on every attempt causes exactly 4 calls (1
initial + 3 retries), with sleeps of
`min(BASE_DELAY * 2 ^ attempt + jitter, MAX_DELAY)` seconds between
attempts, and the returned dictionary carries the stringified last
exception as error and an overall score of 0. -/
theorem retry_bound_throttling (errf : Nat → String) (jitter : Nat → ℚ)
    (hth : ∀ n, isThrottlingError (errf n) = true) :
    (evaluateCandidate (fun n => .error (errf n)) jitter).calls = 4 ∧
    (evaluateCandidate (fun n => .error (errf n)) jitter).delays =
      [min (BASE_DELAY * 2 ^ 0 + jitter 0) MAX_DELAY,
       min (BASE_DELAY * 2 ^ 1 + jitter 1) MAX_DELAY,
       min (BASE_DELAY * 2 ^ 2 + jitter 2) MAX_DELAY] ∧
    (evaluateCandidate (fun n => .error (errf n)) jitter).result =
      JVal.obj [("error", .str ("API Error: " ++ errf 3)),
                ("us_citizen", .bool false),
                ("overall_score", .num 0)] := by
  have key : evaluateCandidate (fun n => .error (errf n)) jitter =
      ⟨apiErrorResult (errf 3), 4,
        [min (BASE_DELAY * 2 ^ 0 + jitter 0) MAX_DELAY,
         min (BASE_DELAY * 2 ^ 1 + jitter 1) MAX_DELAY,
         min (BASE_DELAY * 2 ^ 2 + jitter 2) MAX_DELAY]⟩ := by
    show evalAttempts (fun n => .error (errf n)) jitter [0, 1, 2, 3] 0 [] "None" = _
    simp only [evalAttempts]
    rw [if_pos ⟨hth 0, by decide⟩, if_pos ⟨hth 1, by decide⟩, if_pos ⟨hth 2, by decide⟩,
      if_neg (fun hcon => absurd hcon.2 (by decide))]
    simp
  rw [key]
  exact ⟨rfl, rfl, rfl⟩

/-- Witness for C4: a Gateway always raising an HTTP-429-style error is
throttling-classified on every attempt. -/
theorem retry_bound_throttling_witness :
    (evaluateCandidate (fun n => .error ((fun _ => "Error 429: Too Many Requests") n))
        (fun _ => 0)).calls = 4 ∧
    (evaluateCandidate (fun n => .error ((fun _ => "Error 429: Too Many Requests") n))
        (fun _ => 0)).delays =
      [min (BASE_DELAY * 2 ^ 0 + (fun _ => (0 : ℚ)) 0) MAX_DELAY,
       min (BASE_DELAY * 2 ^ 1 + (fun _ => (0 : ℚ)) 1) MAX_DELAY,
       min (BASE_DELAY * 2 ^ 2 + (fun _ => (0 : ℚ)) 2) MAX_DELAY] ∧
    (evaluateCandidate (fun n => .error ((fun _ => "Error 429: Too Many Requests") n))
        (fun _ => 0)).result =
      JVal.obj [("error", .str ("API Error: " ++ (fun _ => "Error 429: Too Many Requests") 3)),
                ("us_citizen", .bool false),
                ("overall_score", .num 0)] :=
  retry_bound_throttling (fun _ => "Error 429: Too Many Requests") (fun _ => 0)
    (fun _ => (by decide : isThrottlingError ("Error 429: Too Many Requests") = true))

/-- C5 — Malformed output is terminal: when the first Gateway call
succeeds but the (fence-stripped) text does not parse as JSON,
`evaluate_candidate` returns after exactly one call with no sleeps, a
non-empty parse-error message, an overall score of 0 and `us_citizen`
false. -/
theorem malformed_json_terminal (client : Nat → Except String String) (jitter : Nat → ℚ)
    (text : String) (m : String) (hok : client 0 = .ok text)
    (hparse : jsonLoads (stripCodeFences text) = .error m) :
    (evaluateCandidate client jitter).calls = 1 ∧
    (evaluateCandidate client jitter).delays = [] ∧
    (evaluateCandidate client jitter).result =
      JVal.obj [("error", .str ("JSON Parse Error: " ++ m)),
                ("us_citizen", .bool false),
                ("overall_score", .num 0)] ∧
    "JSON Parse Error: " ++ m ≠ "" := by
  have key : evaluateCandidate client jitter = ⟨jsonParseErrorResult m, 1, []⟩ := by
    show evalAttempts client jitter [0, 1, 2, 3] 0 [] "None" = _
    simp only [evalAttempts, hok, hparse]
  rw [key]
  refine ⟨rfl, rfl, rfl, fun hcon => ?_⟩
  have := congrArg String.length hcon
  simp [String.length_append] at this
  exact absurd this.1 (by decide)

/-- Witness for C5: a Gateway returning the literal text "not json". -/
theorem malformed_json_terminal_witness :
    (evaluateCandidate (fun _ => .ok ("not json")) (fun _ => 0)).calls = 1 ∧
    (evaluateCandidate (fun _ => .ok ("not json")) (fun _ => 0)).delays = [] ∧
    (evaluateCandidate (fun _ => .ok ("not json")) (fun _ => 0)).result =
      JVal.obj [("error", .str ("JSON Parse Error: " ++ "Expecting value")),
                ("us_citizen", .bool false),
                ("overall_score", .num 0)] ∧
    "JSON Parse Error: " ++ "Expecting value" ≠ "" :=
  malformed_json_terminal (fun _ => .ok ("not json")) (fun _ => 0) ("not json")
    ("Expecting value") rfl rfl

/-- C10 — Code-fence stripping handles only the "```json" form: for a
Gateway response whose valid-JSON payload is wrapped in bare "```" fences,
the leading fence survives stripping (only the trailing fence is removed),
the payload alone would parse, and `evaluate_candidate` returns a
JSON-parse-error result after exactly one call. -/
theorem bare_fence_parse_error :
    stripCodeFences ("```\n\x7b\"overall_score\": 50\x7d\n```") =
      "```\n\x7b\"overall_score\": 50\x7d" ∧
    jsonLoads ("\x7b\"overall_score\": 50\x7d") =
      .ok (.obj [("overall_score", .num 50)]) ∧
    (evaluateCandidate (fun _ => .ok ("```\n\x7b\"overall_score\": 50\x7d\n```"))
        (fun _ => 0)).calls = 1 ∧
    (evaluateCandidate (fun _ => .ok ("```\n\x7b\"overall_score\": 50\x7d\n```"))
        (fun _ => 0)).result =
      JVal.obj [("error", .str ("JSON Parse Error: " ++ "Expecting value")),
                ("us_citizen", .bool false),
                ("overall_score", .num 0)] :=
  ⟨rfl, rfl, rfl, rfl⟩

/-- A string starting with a non-empty literal is non-empty. -/
theorem append_ne_empty (s t : String) (h : 0 < s.length) : s ++ t ≠ "" := by
  intro hcon
  have h2 := congrArg String.length hcon
  rw [String.length_append] at h2
  simp at h2
  omega

/-- Every value `evaluate_candidate` can return: the API-error dictionary,
the JSON-parse-error dictionary, or a value parsed from a successful
Gateway call. -/
theorem evalAttempts_result_cases (client : Nat → Except String String) (jitter : Nat → ℚ)
    (attempts : List Nat) (calls : Nat) (delays : List ℚ) (lastError : String) :
    (∃ e, (evalAttempts client jitter attempts calls delays lastError).result =
        apiErrorResult e) ∨
    (∃ m, (evalAttempts client jitter attempts calls delays lastError).result =
        jsonParseErrorResult m) ∨
    (∃ a text v, client a = .ok text ∧ jsonLoads (stripCodeFences text) = .ok v ∧
        (evalAttempts client jitter attempts calls delays lastError).result = v) := by
  induction attempts generalizing calls delays lastError with
  | nil => exact Or.inl ⟨lastError, rfl⟩
  | cons a rest ih =>
    simp only [evalAttempts]
    cases hc : client a with
    | ok text =>
      cases hp : jsonLoads (stripCodeFences text) with
      | ok v => exact Or.inr (Or.inr ⟨a, text, v, hc, hp, by simp [hp]⟩)
      | error m => exact Or.inr (Or.inl ⟨m, by simp [hp]⟩)
    | error e =>
      dsimp only
      by_cases hretry : isThrottlingError e = true ∧ a < MAX_RETRIES
      · rw [if_pos hretry]
        exact ih _ _ _
      · rw [if_neg hretry]
        exact Or.inl ⟨e, rfl⟩

/-- The result cases specialised to a full run of `evaluateCandidate`. -/
theorem evaluateCandidate_result_cases (client : Nat → Except String String)
    (jitter : Nat → ℚ) :
    (∃ e, (evaluateCandidate client jitter).result = apiErrorResult e) ∨
    (∃ m, (evaluateCandidate client jitter).result = jsonParseErrorResult m) ∨
    (∃ a text v, client a = .ok text ∧ jsonLoads (stripCodeFences text) = .ok v ∧
        (evaluateCandidate client jitter).result = v) :=
  evalAttempts_result_cases client jitter (List.range (MAX_RETRIES + 1)) 0 [] "None"

/-- The exclusivity invariant claimed for per-candidate result records:
either the error field is the empty string, or it is a non-empty string
and every score field is zero. -/
def exclusivityInvariant (row : ResultRow) : Prop :=
  row.error = .str "" ∨
    ((∃ s, row.error = JVal.str s ∧ s ≠ "") ∧
      row.overallScore = .num 0 ∧
      row.requiredSkillsScore = .num 0 ∧
      row.preferredSkillsScore = .num 0 ∧
      row.educationScore = .num 0 ∧
      row.yearsOfExperience = .num 0 ∧
      row.yearsOfExperienceAdjusted = .num 0)

/-- The per-record invariant over both kinds of `results` entries: a full
record satisfies the exclusivity invariant; a batch-level failure record
carries only a name, an email and a non-empty error. -/
def recordInvariant : OutRecord → Prop
  | .ok row => exclusivityInvariant row
  | .failed _ _ err => err ≠ ""

/-- C8 (amended) — EvaluationResult exclusivity: for any Gateway whose
successfully parsed JSON responses never contain an `error` key, every
record entering `results` satisfies the invariant: full records have
either an empty error or a non-empty error with all score fields zero,
and batch-level exception records carry only name, email and a non-empty
error. -/
theorem result_record_exclusivity (cfg : Config) (now : String)
    (client : Nat → Except String String) (jitter : Nat → ℚ) (info : CandidateInfo)
    (hnoerr : ∀ a text kvs, client a = .ok text →
      jsonLoads (stripCodeFences text) = .ok (.obj kvs) →
        lookupLast kvs ("error") = none) :
    recordInvariant (evalOneRecord cfg now client jitter info) := by
  unfold evalOneRecord
  rcases evaluateCandidate_result_cases client jitter with
    ⟨e, he⟩ | ⟨m, hm⟩ | ⟨a, text, v, hca, hpv, hv⟩
  · rw [he]
    refine Or.inr ⟨⟨"API Error: " ++ e, rfl, append_ne_empty _ _ (by decide)⟩,
      rfl, rfl, rfl, rfl, rfl, rfl⟩
  · rw [hm]
    refine Or.inr ⟨⟨"JSON Parse Error: " ++ m, rfl, append_ne_empty _ _ (by decide)⟩,
      rfl, rfl, rfl, rfl, rfl, rfl⟩
  · rw [hv]
    cases v with
    | obj kvs =>
      have hkey := hnoerr a text kvs hca hpv
      exact Or.inl (by simp [buildResultRow, jget, hkey])
    | null => exact (by decide : ¬("Processing error: the evaluation response is not a JSON object" = ""))
    | bool b => exact (by decide : ¬("Processing error: the evaluation response is not a JSON object" = ""))
    | num q => exact (by decide : ¬("Processing error: the evaluation response is not a JSON object" = ""))
    | str s => exact (by decide : ¬("Processing error: the evaluation response is not a JSON object" = ""))
    | arr xs => exact (by decide : ¬("Processing error: the evaluation response is not a JSON object" = ""))

/-- Counterexample to C8 as stated: a Gateway returning parseable JSON
that carries an `error` key alongside a score produces a record with a
non-empty error and a non-zero overall score — a partial mix. -/
theorem result_record_exclusivity_counterexample :
    ¬ recordInvariant (evalOneRecord defaultConfig ""
        (fun _ => .ok ("\x7b\"error\": \"boom\", \"overall_score\": 50\x7d"))
        (fun _ => 0) (extractCandidateInfo defaultConfig demoRow)) := by
  intro hinv
  have hred : evalOneRecord defaultConfig ""
      (fun _ => .ok ("\x7b\"error\": \"boom\", \"overall_score\": 50\x7d"))
      (fun _ => 0) (extractCandidateInfo defaultConfig demoRow) =
    .ok (buildResultRow defaultConfig "" (extractCandidateInfo defaultConfig demoRow)
      [("error", .str ("boom")), ("overall_score", .num 50)]) := rfl
  rw [hred] at hinv
  have herr : (buildResultRow defaultConfig "" (extractCandidateInfo defaultConfig demoRow)
      [("error", .str ("boom")), ("overall_score", .num 50)]).error = JVal.str ("boom") := rfl
  have hscore : (buildResultRow defaultConfig "" (extractCandidateInfo defaultConfig demoRow)
      [("error", .str ("boom")), ("overall_score", .num 50)]).overallScore =
      JVal.num 50 := rfl
  rcases hinv with h | ⟨_, hover, _⟩
  · have hbad := JVal.str.inj (herr.symm.trans h)
    exact absurd hbad (by decide)
  · have hbad := JVal.num.inj (hscore.symm.trans hover)
    norm_num at hbad

/-- Witness for the amended C8: a Gateway returning JSON without an
`error` key satisfies the hypothesis. -/
theorem result_record_exclusivity_witness :
    recordInvariant (evalOneRecord defaultConfig ""
        (fun _ => .ok ("\x7b\"overall_score\": 70\x7d"))
        (fun _ => 0) (extractCandidateInfo defaultConfig demoRow)) := by
  refine result_record_exclusivity defaultConfig ""
    (fun _ => .ok ("\x7b\"overall_score\": 70\x7d")) (fun _ => 0)
    (extractCandidateInfo defaultConfig demoRow) ?_
  intro a text kvs h1 h2
  have h1' : (Except.ok ("\x7b\"overall_score\": 70\x7d") : Except String String) = .ok text := h1
  injection h1' with h1e
  subst h1e
  have h2' : (Except.ok (JVal.obj [("overall_score", JVal.num 70)]) : Except String JVal) =
      .ok (JVal.obj kvs) := h2
  injection h2' with h2e
  have h2k := JVal.obj.inj h2e
  subst h2k
  rfl

/-- C9 (amended) — Missing-key defaulting: each key of the evaluation
response contract that is absent from the parsed object is filled with its
per-field default in the assembled record: 0 for the numeric score and
experience fields, the empty string for the free-text fields, "Unknown"
for the clearance and polygraph enums, "No" for the foreign-education
flag, "N/A" for `recommended_payband` and "None" for
`degree_in_progress`. -/
theorem missing_key_defaults (cfg : Config) (now : String) (info : CandidateInfo)
    (ev : List (String × JVal)) :
    (lookupLast ev ("security_clearance") = none →
      (buildResultRow cfg now info ev).securityClearance = .str "Unknown") ∧
    (lookupLast ev ("polygraph") = none →
      (buildResultRow cfg now info ev).polygraph = .str "Unknown") ∧
    (lookupLast ev ("has_foreign_education") = none →
      (buildResultRow cfg now info ev).foreignEducation = "No") ∧
    (lookupLast ev ("foreign_education_countries") = none →
      (buildResultRow cfg now info ev).foreignEducationCountries = .str "") ∧
    (lookupLast ev ("foreign_education_details") = none →
      (buildResultRow cfg now info ev).foreignEducationDetails = .str "") ∧
    (lookupLast ev ("overall_score") = none →
      (buildResultRow cfg now info ev).overallScore = .num 0) ∧
    (lookupLast ev ("required_skills_score") = none →
      (buildResultRow cfg now info ev).requiredSkillsScore = .num 0) ∧
    (lookupLast ev ("preferred_skills_score") = none →
      (buildResultRow cfg now info ev).preferredSkillsScore = .num 0) ∧
    (lookupLast ev ("education_score") = none →
      (buildResultRow cfg now info ev).educationScore = .num 0) ∧
    (lookupLast ev ("years_of_experience") = none →
      (buildResultRow cfg now info ev).yearsOfExperience = .num 0) ∧
    (lookupLast ev ("years_of_experience_adjusted") = none →
      (buildResultRow cfg now info ev).yearsOfExperienceAdjusted = .num 0) ∧
    (lookupLast ev ("recommended_payband") = none →
      (buildResultRow cfg now info ev).recommendedPayband = .str "N/A") ∧
    (lookupLast ev ("highest_completed_degree") = none →
      (buildResultRow cfg now info ev).highestCompletedDegree = .str "") ∧
    (lookupLast ev ("highest_degree_field") = none →
      (buildResultRow cfg now info ev).degreeField = .str "") ∧
    (lookupLast ev ("degree_in_progress") = none →
      (buildResultRow cfg now info ev).degreeInProgress = .str "None") ∧
    (lookupLast ev ("degree_in_progress_field") = none →
      (buildResultRow cfg now info ev).degreeInProgressField = .str "") ∧
    (lookupLast ev ("expected_graduation") = none →
      (buildResultRow cfg now info ev).expectedGraduation = .str "") ∧
    (lookupLast ev ("key_strengths") = none →
      (buildResultRow cfg now info ev).keyStrengths = .str "") ∧
    (lookupLast ev ("concerns_gaps") = none →
      (buildResultRow cfg now info ev).concernsGaps = .str "") ∧
    (lookupLast ev ("detailed_reasoning") = none →
      (buildResultRow cfg now info ev).detailedReasoning = .str "") ∧
    (lookupLast ev ("error") = none →
      (buildResultRow cfg now info ev).error = .str "") := by
  refine ⟨?_, ?_, ?_, ?_, ?_, ?_, ?_, ?_, ?_, ?_, ?_, ?_, ?_, ?_, ?_, ?_, ?_, ?_, ?_, ?_, ?_⟩ <;>
    intro h <;> simp [buildResultRow, jget, pyTruthy, h]

/-- Counterexample to C9 as stated: with an empty evaluation object the
`recommended_payband` field defaults to "N/A" and `degree_in_progress` to
"None" — neither zero, the empty string, nor "Unknown". -/
theorem missing_key_defaults_counterexample :
    (buildResultRow defaultConfig "" (extractCandidateInfo defaultConfig demoRow)
        []).recommendedPayband = JVal.str ("N/A") ∧
    (buildResultRow defaultConfig "" (extractCandidateInfo defaultConfig demoRow)
        []).degreeInProgress = JVal.str ("None") ∧
    ¬ ((buildResultRow defaultConfig "" (extractCandidateInfo defaultConfig demoRow)
          []).recommendedPayband = .num 0 ∨
       (buildResultRow defaultConfig "" (extractCandidateInfo defaultConfig demoRow)
          []).recommendedPayband = .str "" ∨
       (buildResultRow defaultConfig "" (extractCandidateInfo defaultConfig demoRow)
          []).recommendedPayband = .str "Unknown") := by
  refine ⟨rfl, rfl, ?_⟩
  intro hcon
  rcases hcon with h | h | h
  · exact JVal.noConfusion (show JVal.str ("N/A") = JVal.num 0 from h)
  · exact absurd (JVal.str.inj (show JVal.str ("N/A") = JVal.str "" from h)) (by decide)
  · exact absurd (JVal.str.inj (show JVal.str ("N/A") = JVal.str "Unknown" from h)) (by decide)

/-- Witness for the amended C9 at the empty evaluation object: every
contract key is absent and every field carries its stated default. -/
theorem missing_key_defaults_witness :
    (buildResultRow defaultConfig "" (extractCandidateInfo defaultConfig demoRow)
        []).securityClearance = .str "Unknown" ∧
    (buildResultRow defaultConfig "" (extractCandidateInfo defaultConfig demoRow)
        []).polygraph = .str "Unknown" ∧
    (buildResultRow defaultConfig "" (extractCandidateInfo defaultConfig demoRow)
        []).foreignEducation = "No" ∧
    (buildResultRow defaultConfig "" (extractCandidateInfo defaultConfig demoRow)
        []).foreignEducationCountries = .str "" ∧
    (buildResultRow defaultConfig "" (extractCandidateInfo defaultConfig demoRow)
        []).foreignEducationDetails = .str "" ∧
    (buildResultRow defaultConfig "" (extractCandidateInfo defaultConfig demoRow)
        []).overallScore = .num 0 ∧
    (buildResultRow defaultConfig "" (extractCandidateInfo defaultConfig demoRow)
        []).requiredSkillsScore = .num 0 ∧
    (buildResultRow defaultConfig "" (extractCandidateInfo defaultConfig demoRow)
        []).preferredSkillsScore = .num 0 ∧
    (buildResultRow defaultConfig "" (extractCandidateInfo defaultConfig demoRow)
        []).educationScore = .num 0 ∧
    (buildResultRow defaultConfig "" (extractCandidateInfo defaultConfig demoRow)
        []).yearsOfExperience = .num 0 ∧
    (buildResultRow defaultConfig "" (extractCandidateInfo defaultConfig demoRow)
        []).yearsOfExperienceAdjusted = .num 0 ∧
    (buildResultRow defaultConfig "" (extractCandidateInfo defaultConfig demoRow)
        []).recommendedPayband = .str "N/A" ∧
    (buildResultRow defaultConfig "" (extractCandidateInfo defaultConfig demoRow)
        []).highestCompletedDegree = .str "" ∧
    (buildResultRow defaultConfig "" (extractCandidateInfo defaultConfig demoRow)
        []).degreeField = .str "" ∧
    (buildResultRow defaultConfig "" (extractCandidateInfo defaultConfig demoRow)
        []).degreeInProgress = .str "None" ∧
    (buildResultRow defaultConfig "" (extractCandidateInfo defaultConfig demoRow)
        []).degreeInProgressField = .str "" ∧
    (buildResultRow defaultConfig "" (extractCandidateInfo defaultConfig demoRow)
        []).expectedGraduation = .str "" ∧
    (buildResultRow defaultConfig "" (extractCandidateInfo defaultConfig demoRow)
        []).keyStrengths = .str "" ∧
    (buildResultRow defaultConfig "" (extractCandidateInfo defaultConfig demoRow)
        []).concernsGaps = .str "" ∧
    (buildResultRow defaultConfig "" (extractCandidateInfo defaultConfig demoRow)
        []).detailedReasoning = .str "" ∧
    (buildResultRow defaultConfig "" (extractCandidateInfo defaultConfig demoRow)
        []).error = .str "" := by
  obtain ⟨h1, h2, h3, h4, h5, h6, h7, h8, h9, h10, h11, h12, h13, h14, h15, h16, h17,
      h18, h19, h20, h21⟩ :=
    missing_key_defaults defaultConfig "" (extractCandidateInfo defaultConfig demoRow) []
  exact ⟨h1 rfl, h2 rfl, h3 rfl, h4 rfl, h5 rfl, h6 rfl, h7 rfl, h8 rfl, h9 rfl, h10 rfl,
    h11 rfl, h12 rfl, h13 rfl, h14 rfl, h15 rfl, h16 rfl, h17 rfl, h18 rfl, h19 rfl,
    h20 rfl, h21 rfl⟩

/-- Round-half-to-even never rounds below the floor. -/
theorem floor_le_pythonRound (q : ℚ) : ⌊q⌋ ≤ pythonRound q := by
  simp only [pythonRound]
  split
  · exact le_refl _
  · split
    · omega
    · split <;> omega

/-- Round-half-to-even never rounds above the ceiling. -/
theorem pythonRound_le_floor_add_one (q : ℚ) : pythonRound q ≤ ⌊q⌋ + 1 := by
  simp only [pythonRound]
  split
  · omega
  · split
    · exact le_refl _
    · split <;> omega

/-- Round-half-to-even is monotone. -/
theorem pythonRound_mono {a b : ℚ} (h : a ≤ b) : pythonRound a ≤ pythonRound b := by
  have hf : ⌊a⌋ ≤ ⌊b⌋ := Int.floor_le_floor h
  rcases lt_or_eq_of_le hf with hlt | heq
  · calc pythonRound a ≤ ⌊a⌋ + 1 := pythonRound_le_floor_add_one a
      _ ≤ ⌊b⌋ := by omega
      _ ≤ pythonRound b := floor_le_pythonRound b
  · simp only [pythonRound, ← heq]
    have hab : a - ⌊a⌋ ≤ b - ⌊a⌋ := by linarith
    by_cases h1 : a - ⌊a⌋ < 1 / 2
    · rw [if_pos h1]
      split
      · exact le_refl _
      · split
        · omega
        · split <;> omega
    · rw [if_neg h1]
      have h1b : ¬(b - ⌊a⌋ < 1 / 2) := by
        intro hcon
        exact h1 (lt_of_le_of_lt hab hcon)
      rw [if_neg h1b]
      by_cases h2 : 1 / 2 < a - ⌊a⌋
      · rw [if_pos h2, if_pos (lt_of_lt_of_le h2 hab)]
      · rw [if_neg h2]
        by_cases h3 : 1 / 2 < b - ⌊a⌋
        · rw [if_pos h3]
          split <;> omega
        · rw [if_neg h3]

/-- C2 (amended) — Weight normalization: for any three non-negative
integer weights not all zero, the normalized triple sums to exactly 100
and the relative ordering of the required-skills and preferred-skills
inputs is preserved; the education bucket absorbs the rounding remainder
and comparisons involving it need not be preserved. -/
theorem weight_normalization (required preferred education : ℕ)
    (hpos : required + preferred + education ≠ 0) :
    (normalizeWeights required preferred education).1 +
        (normalizeWeights required preferred education).2.1 +
        (normalizeWeights required preferred education).2.2 = 100 ∧
    (required ≤ preferred →
      (normalizeWeights required preferred education).1 ≤
        (normalizeWeights required preferred education).2.1) ∧
    (preferred ≤ required →
      (normalizeWeights required preferred education).2.1 ≤
        (normalizeWeights required preferred education).1) := by
  have htot : (0 : ℚ) < ((required + preferred + education : ℕ) : ℚ) := by
    exact_mod_cast Nat.pos_of_ne_zero hpos
  refine ⟨?_, ?_, ?_⟩
  · simp only [normalizeWeights]
    ring
  · intro hle
    simp only [normalizeWeights]
    apply pythonRound_mono
    apply mul_le_mul_of_nonneg_right _ (by norm_num : (0 : ℚ) ≤ 100)
    exact (div_le_div_iff_of_pos_right htot).mpr (by exact_mod_cast hle)
  · intro hle
    simp only [normalizeWeights]
    apply pythonRound_mono
    apply mul_le_mul_of_nonneg_right _ (by norm_num : (0 : ℚ) ≤ 100)
    exact (div_le_div_iff_of_pos_right htot).mpr (by exact_mod_cast hle)

/-- Counterexample to C2 as stated: on equal inputs (5, 5, 5) the
normalized triple is (33, 33, 34), so education ≤ required as inputs but
the normalized education value exceeds the normalized required value. -/
theorem weight_normalization_counterexample :
    normalizeWeights 5 5 5 = (33, 33, 34) ∧ (5 : ℕ) ≤ 5 ∧
      ¬ ((normalizeWeights 5 5 5).2.2 ≤ (normalizeWeights 5 5 5).1) := by
  have hval : ((5 : ℕ) : ℚ) / (((5 + 5 + 5 : ℕ) : ℕ) : ℚ) * 100 = 100 / 3 := by
    push_cast
    norm_num
  have hfloor : ⌊(100 / 3 : ℚ)⌋ = 33 := by
    rw [Int.floor_eq_iff]
    constructor <;> norm_num
  have hround : pythonRound (((5 : ℕ) : ℚ) / (((5 + 5 + 5 : ℕ) : ℕ) : ℚ) * 100) = 33 := by
    rw [hval]
    simp only [pythonRound, hfloor]
    norm_num
  have key : normalizeWeights 5 5 5 = (33, 33, 34) := by
    simp only [normalizeWeights, hround]
    norm_num
  refine ⟨key, le_refl 5, ?_⟩
  rw [key]
  decide

/-- Witness for the amended C2 at the default weights (50, 30, 20). -/
theorem weight_normalization_witness :
    (normalizeWeights 50 30 20).1 + (normalizeWeights 50 30 20).2.1 +
        (normalizeWeights 50 30 20).2.2 = 100 ∧
      (normalizeWeights 50 30 20).2.1 ≤ (normalizeWeights 50 30 20).1 :=
  ⟨(weight_normalization 50 30 20 (by decide)).1,
   (weight_normalization 50 30 20 (by decide)).2.2 (by decide)⟩

/-- Containment survives prepending. -/
theorem contains_append_left (s t n : String) (h : containsStr t n) :
    containsStr (s ++ t) n := by
  obtain ⟨pre, suf, heq⟩ := h
  exact ⟨s.data ++ pre, suf, by simp [← heq]⟩

/-- Containment survives appending. -/
theorem contains_append_right (s t n : String) (h : containsStr s n) :
    containsStr (s ++ t) n := by
  obtain ⟨pre, suf, heq⟩ := h
  exact ⟨pre, suf ++ t.data, by simp [← heq]⟩

/-- Every string contains itself. -/
theorem containsStr_refl (s : String) : containsStr s s :=
  List.infix_refl s.data

/-- Every element of a joined list occurs in the joined string. -/
theorem mem_join_infix (sep : String) (lines : List String) (l : String)
    (hmem : l ∈ lines) : containsStr (joinSep sep lines) l := by
  induction lines with
  | nil => cases hmem
  | cons x rest ih =>
    rcases List.mem_cons.mp hmem with he | ht
    · subst he
      cases rest with
      | nil => exact containsStr_refl l
      | cons y ys =>
        exact contains_append_right _ _ _ (contains_append_right _ _ _ (containsStr_refl l))
    · cases rest with
      | nil => cases ht
      | cons y ys =>
        exact contains_append_left _ _ _ (ih ht)

/-- C7 — Prompt-shape stability: the per-candidate user message is a
deterministic function of the candidate fields in which every field line
of the contract occurs (no line is ever omitted), and a field whose key is
missing from the candidate dictionary is rendered with the explicit
sentinel "Not provided". -/
theorem prompt_shape_stable (resumeText : String) (ci : List (String × String)) :
    ∀ k lbl, (k, lbl) ∈ fieldLabels →
      ∃ v, containsStr (buildCandidateEvaluationMessage resumeText ci) (lbl ++ v) ∧
        (lookupStr ci k = none → v = "Not provided") := by
  intro k lbl hmem
  refine ⟨dictGet ci k ("Not provided"), ?_, ?_⟩
  · have hline : (lbl ++ dictGet ci k ("Not provided")) ∈ messageLines ci := by
      simp only [messageLines]
      exact List.mem_map.mpr ⟨(k, lbl), hmem, rfl⟩
    have hjoin := mem_join_infix ("\n") (messageLines ci) _ hline
    unfold buildCandidateEvaluationMessage
    exact contains_append_left _ _ _ (contains_append_right _ _ _ hjoin)
  · intro hnone
    simp [dictGet, hnone]

/-- Witness for C7: with an empty candidate dictionary, the skills line is
present in the message with the sentinel. -/
theorem prompt_shape_stable_witness :
    containsStr (buildCandidateEvaluationMessage ("resume") [])
      ("Skills (self-reported): " ++ "Not provided") := by
  obtain ⟨v, hv, himp⟩ :=
    prompt_shape_stable ("resume") [] ("skills") ("Skills (self-reported): ") (by decide)
  rw [himp rfl] at hv
  exact hv

end Arc
